import Mathlib

/-!
# Verification of the gemini-qa-agent MCP server

A shallow embedding of `src/gemini-qa-agent/server.py`.  The server exposes
six QA tools over MCP; each handler formats a prompt, shells out to the
external `gemini` CLI through `run_gemini_command`, and formats the result
into a single text payload.  Filesystem and subprocess effects are modelled
by a `World` record of uninterpreted functions; the global mutable
`os.environ['PATH']` is threaded explicitly as an `Option String` state.
-/

set_option autoImplicit false

/-- Kinds of Python exceptions that the server's code paths distinguish
(`KeyError` from argument lookup, `FileNotFoundError`,
`subprocess.TimeoutExpired`, decode errors, `ValueError` from dispatch,
and a catch-all for anything else). -/
inductive ExcKind where
  | keyError
  | fileNotFound
  | timeout
  | decodeError
  | valueError
  | otherExc
deriving DecidableEq, Repr

/-- A Python exception: its kind plus the text produced by `str(e)`. -/
structure PyExc where
  kind : ExcKind
  msg : String
deriving DecidableEq, Repr

/-- An MCP argument value; the declared schemas use only strings and
booleans. -/
inductive PyVal where
  | str (s : String)
  | bool (b : Bool)
deriving DecidableEq, Repr

/-- The argument mapping of a tool call: a partial map from argument name to
value (`none` models a missing key). -/
abbrev Args := String → Option PyVal

/-- Python `str()` of an argument value (`str(True) = "True"`). -/
def asString : PyVal → String
  | .str s => s
  | .bool b => if b then "True" else "False"

/-- Python truthiness of an argument value. -/
def truthy : PyVal → Bool
  | .str s => s ≠ ""
  | .bool b => b

/-- `args.get(k, d)`. -/
def argsGet (a : Args) (k : String) (d : PyVal) : PyVal := (a k).getD d

/-- `args[k]`: raises `KeyError` when the key is missing
(`str(KeyError('k'))` is the quoted key). -/
def getItem (a : Args) (k : String) : Except PyExc PyVal :=
  match a k with
  | some v => .ok v
  | none => .error ⟨.keyError, "'" ++ k ++ "'"⟩

/-- Python `a or b` on strings: `b` when `a` is empty. -/
def pyOr (a b : String) : String := if a = "" then b else a

/-- `sub` is a prefix of the second list (Python `str.startswith`, used
below to state glyph-prefix properties). -/
def isPrefixL : List Char → List Char → Bool
  | [], _ => true
  | _ :: _, [] => false
  | a :: as, b :: bs => a == b && isPrefixL as bs

/-- `sub` occurs contiguously inside the second list. -/
def isInfixL (sub : List Char) : List Char → Bool
  | [] => isPrefixL sub []
  | b :: bs => isPrefixL sub (b :: bs) || isInfixL sub bs

/-- Python's substring test `sub in s`. -/
def isSubstr (sub s : String) : Bool := isInfixL sub.data s.data

/-- `s` starts with `p` (propositional form). -/
def strStarts (p s : String) : Prop := isPrefixL p.data s.data = true

instance (p s : String) : Decidable (strStarts p s) := by
  unfold strStarts; infer_instance

/-- `s` contains `sub` as a contiguous substring (propositional form). -/
def strContains (s sub : String) : Prop :=
  ∃ a b, s.data = a ++ sub.data ++ b

/-- The payload begins with the success glyph or the failure glyph. -/
def glyphOk (s : String) : Prop := strStarts "✅" s ∨ strStarts "❌" s

instance (s : String) : Decidable (glyphOk s) := by
  unfold glyphOk; infer_instance

/-- Index of the last occurrence of `c` (Python `str.rfind`, `none` for
`-1`). -/
def rfindC : List Char → Char → Option Nat
  | [], _ => none
  | a :: as, c =>
    match rfindC as c with
    | some i => some (i + 1)
    | none => if a = c then some 0 else none

/-- `os.path.basename` for POSIX paths: everything after the last slash. -/
def basename (p : String) : String :=
  match rfindC p.data '/' with
  | some i => String.mk (p.data.drop (i + 1))
  | none => p

/-- `os.path.splitext` for POSIX paths: split at the last dot provided it
comes after the last slash and the characters between them are not all
dots (leading dots of the basename never start an extension). -/
def splitext (p : String) : String × String :=
  let l := p.data
  let sepIndex : Int := match rfindC l '/' with | some i => (i : Int) | none => -1
  let dotIndex : Int := match rfindC l '.' with | some i => (i : Int) | none => -1
  if sepIndex < dotIndex then
    let start := (sepIndex + 1).toNat
    let d := dotIndex.toNat
    if ((l.drop start).take (d - start)).any (fun ch => ch ≠ '.') then
      (String.mk (l.take d), String.mk (l.drop d))
    else (p, "")
  else (p, "")

/-- The test file name derived by `generate_tests_handler` from the source
file's extension (server.py lines 377-388). -/
def test_file_name (source_file : String) : String :=
  let base_name := (splitext (basename source_file)).1
  let extension := (splitext source_file).2
  if extension ∈ [".js", ".ts", ".jsx", ".tsx"] then
    base_name ++ ".test" ++ extension
  else if extension = ".py" then
    "test_" ++ base_name ++ ".py"
  else if extension ∈ [".java"] then
    base_name ++ "Test.java"
  else
    base_name ++ "_test" ++ extension

/-- The path the generated tests are saved to (server.py line 390). -/
def test_file_path (source_file : String) : String :=
  "./tests/" ++ test_file_name source_file

/-- The extension-to-test-file-name mapping exactly as the specification
words it, for comparison with the code's `test_file_name`. -/
def specTestName (base ext : String) : String :=
  if ext ∈ [".js", ".ts", ".jsx", ".tsx"] then base ++ ".test" ++ ext
  else if ext = ".py" then "test_" ++ base ++ ".py"
  else if ext = ".java" then base ++ "Test.java"
  else base ++ "_test" ++ ext

example : test_file_path "foo.py" = "./tests/test_foo.py" := by decide
example : test_file_path "Bar.java" = "./tests/BarTest.java" := by decide
example : test_file_path "x.ts" = "./tests/x.test.ts" := by decide
example : test_file_path "src/dir/a.cpp" = "./tests/a_test.cpp" := by decide
example : glyphOk "✅ ok" := by decide
example : ¬ glyphOk "⏰ Gemini request timed out" := by decide

/-- The result of `subprocess.run`: exit code, captured stdout and stderr. -/
structure ProcResult where
  returncode : Int
  stdout : String
  stderr : String
deriving DecidableEq, Repr

/-- The ambient system: filesystem observations, the external `gemini`
process, and the `shutil.which` lookup.  All are uninterpreted functions so
that theorems quantify over every possible environment.  `which` takes the
value of the `PATH` variable in effect for the lookup (`none` = unset).
`structureSummary` and `configContent` stand for the project-tree listing
and key-file excerpts computed by `code_quality_report_handler`'s directory
walk; the walk is plain filesystem traversal whose output feeds only the
prompt text, so it is modelled as an observation of the world. -/
structure World where
  pathExists : String → Bool
  isFile : String → Bool
  isDir : String → Bool
  isExecutable : String → Bool
  readFile : String → Except PyExc String
  writeFile : String → String → Except PyExc Unit
  makedirs : String → Except PyExc Unit
  globMatches : String → String → List String
  run : List String → String → String → Nat → Except PyExc ProcResult
  which : Option String → Option String
  expandedHome : String
  structureSummary : String → String
  configContent : String → String

/-- The npm global bin directory hard-coded in `run_gemini_command`. -/
def npm_bin_path : String := "/home/user/.npm-global/bin"

/-- The fallback directories prepended to `PATH` (server.py lines 56-62);
the fourth entry is `os.path.expanduser('~/.npm-global/bin')`. -/
def additional_paths (w : World) : List String :=
  ["/usr/local/bin", "/usr/bin", "/bin",
   w.expandedHome ++ "/.npm-global/bin", "/home/user/.local/bin"]

/-- One step of the `PATH` construction: prepend `d` unless it already
occurs in `acc` — Python's `if path not in env['PATH']` is a substring
test on the whole `PATH` string. -/
def pathStep (acc d : String) : String :=
  if isSubstr d acc then acc else d ++ ":" ++ acc

/-- The child `PATH` built by `run_gemini_command` (lines 46-66) from the
current value `current` of `os.environ.get('PATH', '')`: first the npm
global bin, then each fallback directory, each prepended only when not
already a substring. -/
def buildPATH (w : World) (current : String) : String :=
  (additional_paths w).foldl pathStep (pathStep current npm_bin_path)

/-- Colon-splitting of a `PATH` string into its entries. -/
def splitC : List Char → List (List Char)
  | [] => [[]]
  | c :: t =>
    if c = ':' then [] :: splitC t
    else
      match splitC t with
      | [] => [[c]]
      | h :: t2 => (c :: h) :: t2

/-- The `PATH` construction as the specification words it: prepend each
candidate directory unless it is already present as one of the
colon-separated entries of the search path. -/
def pathStepSpec (acc d : String) : String :=
  if d.data ∈ splitC acc.data then acc else d ++ ":" ++ acc

/-- Spec-worded variant of `buildPATH` (entry membership instead of
substring membership), for comparison with the code's behaviour. -/
def buildPATHSpec (w : World) (current : String) : String :=
  (additional_paths w).foldl pathStepSpec (pathStepSpec current npm_bin_path)

/-- The candidate executable locations tried in order (lines 69-75); the
last is the `shutil.which('gemini')` lookup under the ambient `PATH` `g`. -/
def gemini_locations (w : World) (g : Option String) : List (Option String) :=
  [some "/home/user/.npm-global/bin/gemini",
   some "/usr/local/bin/gemini",
   some "/usr/bin/gemini",
   some (w.expandedHome ++ "/.npm-global/bin/gemini"),
   w.which g]

/-- `if location and os.path.exists(location) and os.access(location, X_OK)`:
the candidate is truthy (non-empty), exists, and is executable. -/
def validExe (w : World) (p : String) : Bool :=
  p ≠ "" && w.pathExists p && w.isExecutable p

/-- The location-scanning loop (lines 77-81): first candidate that is
non-`None`, truthy, exists and is executable. -/
def findLoop (w : World) : List (Option String) → Option String
  | [] => none
  | none :: rest => findLoop w rest
  | some p :: rest => if validExe w p then some p else findLoop w rest

/-- Full executable resolution: the candidate scan, then — if it failed —
a retry of `shutil.which` under the newly constructed `PATH`
(lines 83-91). -/
def resolveGemini (w : World) (g : Option String) (envPATH : String) : Option String :=
  match findLoop w (gemini_locations w g) with
  | some p => some p
  | none => w.which (some envPATH)

/-- Output of one `run_gemini_command` call: the returned or raised result,
the value of the process-global `os.environ['PATH']` afterwards, and the
child processes spawned. -/
structure RunOut where
  result : Except PyExc ProcResult
  gstate : Option String
  spawned : List (List String)
deriving Repr

/-- `run_gemini_command(args, working_dir, timeout)` (server.py lines
28-139) under global `PATH` state `g`.  Builds the child environment's
`PATH`, resolves the executable, and either raises `FileNotFoundError`
without spawning anything, or spawns `[gemini_path] + args`.  The fallback
`which` retry temporarily installs the constructed `PATH` into the global
environment and restores `old_path = os.environ.get('PATH', '')` in a
`finally` block, so after a fallback the global state is
`some (g.getD "")`. -/
def run_gemini_command (w : World) (args : List String)
    (working_dir : Option String) (timeout : Nat) (g : Option String) : RunOut :=
  let current := g.getD ""
  let envPATH := buildPATH w current
  let first := findLoop w (gemini_locations w g)
  let gemini_path := resolveGemini w g envPATH
  let g2 := match first with
    | some _ => g
    | none => some (g.getD "")
  match gemini_path with
  | none =>
    { result := .error ⟨.fileNotFound,
        "Gemini CLI executable not found. Please ensure it's installed via npm."⟩,
      gstate := g2, spawned := [] }
  | some gp =>
    let wd := match working_dir with
      | some d => d
      | none => if w.pathExists w.expandedHome then w.expandedHome else "/home/user"
    let full_cmd := gp :: args
    { result := w.run full_cmd envPATH wd timeout,
      gstate := g2, spawned := [full_cmd] }

/-- A single MCP text payload. -/
structure TextContent where
  text : String
deriving DecidableEq, Repr

instance {ε α : Type} [DecidableEq ε] [DecidableEq α] : DecidableEq (Except ε α)
  | .ok a, .ok b =>
    if h : a = b then .isTrue (congrArg Except.ok h)
    else .isFalse (fun he => h (Except.ok.inj he))
  | .ok _, .error _ => .isFalse (fun he => Except.noConfusion he)
  | .error _, .ok _ => .isFalse (fun he => Except.noConfusion he)
  | .error a, .error b =>
    if h : a = b then .isTrue (congrArg Except.error h)
    else .isFalse (fun he => h (Except.error.inj he))

/-- Observable outcome of one handler (or `call_tool`) invocation: the
returned payloads or the escaped exception, the global `PATH` state
afterwards, the `run_gemini_command` calls made (arguments and timeout),
the child processes spawned, and the files written. -/
structure HOut where
  res : Except PyExc (List TextContent)
  gstate : Option String
  invoked : List (List String × Nat)
  spawned : List (List String)
  written : List (String × String)
deriving DecidableEq, Repr

/-- The review prompt selected by `prompts.get(review_type, prompts["general"])`
(server.py lines 249-323). -/
def reviewPrompt (review_type file_path code_content : String) : String :=
  if review_type = "security" then
    "Perform a comprehensive security review of this code. Look for:\n- Security vulnerabilities and potential exploits\n- Input validation issues\n- Authentication and authorization flaws\n- Data exposure risks\n- Injection attack vectors\n- Cryptographic issues\n- Access control problems\n\nFile: " ++ (file_path ++ ("\n\nCode:\n```\n" ++ (code_content ++ "\n```\n\nProvide specific security recommendations and fixes.")))
  else if review_type = "performance" then
    "Analyze this code for performance issues and optimization opportunities:\n- Algorithmic complexity analysis\n- Memory usage optimization\n- I/O operation efficiency\n- Database query optimization\n- Caching opportunities\n- Resource management\n- Scalability concerns\n\nFile: " ++ (file_path ++ ("\n\nCode:\n```\n" ++ (code_content ++ "\n```\n\nProvide specific performance improvement recommendations.")))
  else if review_type = "style" then
    "Review this code for style, readability, and best practices:\n- Code organization and structure\n- Naming conventions\n- Documentation and comments\n- Code duplication\n- Design patterns usage\n- Language-specific best practices\n- Maintainability aspects\n\nFile: " ++ (file_path ++ ("\n\nCode:\n```\n" ++ (code_content ++ "\n```\n\nProvide specific style and best practice recommendations.")))
  else
    "Perform a comprehensive code review covering all aspects:\n- Code quality and organization\n- Security vulnerabilities\n- Performance considerations\n- Style and best practices\n- Maintainability\n- Testing considerations\n- Documentation quality\n\nFile: " ++ (file_path ++ ("\n\nCode:\n```\n" ++ (code_content ++ "\n```\n\nProvide a thorough analysis with specific recommendations for improvement.")))

/-- The test-generation prompt (lines 352-372). -/
def generateTestsPrompt (source_file test_framework coverage_level source_code : String) : String :=
  "Generate " ++ (coverage_level ++ (" test cases for this code using " ++ (test_framework ++ (".\n\nRequirements:\n- Create thorough unit tests\n- Include edge cases and boundary conditions\n- Test error scenarios and exception handling\n- Include setup and teardown if needed\n- Add descriptive test names and comments\n- Ensure good test coverage\n- Include integration tests where appropriate\n\nSource File: " ++ (source_file ++ ("\nTesting Framework: " ++ (test_framework ++ ("\nCoverage Level: " ++ (coverage_level ++ ("\n\nSource Code:\n```\n" ++ (source_code ++ "\n```\n\nGenerate complete, runnable test code with proper structure and organization.")))))))))))

/-- The per-file security-audit prompt (lines 442-463). -/
def auditPrompt (file_path content : String) : String :=
  "Perform a comprehensive security audit of this code file.\n\nFocus on identifying:\n- SQL injection vulnerabilities\n- Cross-site scripting (XSS) issues\n- Authentication bypass possibilities\n- Authorization flaws\n- Input validation problems\n- Data exposure risks\n- Cryptographic weaknesses\n- File system security issues\n- Network security concerns\n- Dependency vulnerabilities\n\nFile: " ++ (file_path ++ ("\n\nCode:\n```\n" ++ (content ++ "\n```\n\nProvide specific security findings with severity levels and remediation recommendations.")))

/-- The performance-analysis prompt (lines 495-517). -/
def performancePrompt (language file_path code_content : String) : String :=
  "Analyze this " ++ (language ++ (" code for performance bottlenecks and optimization opportunities.\n\nPerformance Analysis Areas:\n- Algorithmic complexity (Big O analysis)\n- Memory usage and optimization\n- I/O operations efficiency\n- Database query optimization\n- Caching opportunities\n- Resource management\n- Concurrent/parallel processing potential\n- Language-specific optimizations\n- Scalability considerations\n- Profiling recommendations\n\nFile: " ++ (file_path ++ ("\nLanguage: " ++ (language ++ ("\n\nCode:\n```\n" ++ (code_content ++ "\n```\n\nProvide specific performance improvement recommendations with before/after examples where applicable.")))))))

/-- The project-quality prompt (lines 579-622). -/
def qualityPrompt (project_path include_metrics structure_summary config_content : String) : String :=
  "Analyze this project and provide a comprehensive code quality report.\n\nProject Path: " ++ (project_path ++ ("\nInclude Metrics: " ++ (include_metrics ++ ("\n\nProject Structure:\n" ++ (structure_summary ++ ("\n\nKey Configuration Files:\n" ++ (config_content ++ "\n\nPlease provide a comprehensive analysis covering:\n\n1. **Architecture Assessment**\n   - Project structure and organization\n   - Design patterns usage\n   - Separation of concerns\n   - Modularity and maintainability\n\n2. **Code Quality Metrics** (if include_metrics is True)\n   - Estimated complexity\n   - Maintainability index\n   - Technical debt indicators\n   - Documentation coverage\n\n3. **Best Practices Compliance**\n   - Language-specific conventions\n   - Security practices\n   - Performance considerations\n   - Testing strategy\n\n4. **Improvement Recommendations**\n   - Priority issues to address\n   - Refactoring opportunities\n   - Infrastructure improvements\n   - Development workflow enhancements\n\n5. **Risk Assessment**\n   - Security vulnerabilities\n   - Performance bottlenecks\n   - Maintenance challenges\n   - Scalability concerns\n\nProvide actionable recommendations with priority levels.")))))))

/-- Body of `review_code_handler`'s `try` block (lines 240-338).  Every
exception raised inside — read failure, invoker failure — is converted to
a `❌` payload, mirroring the blanket `except Exception`. -/
def review_code_body (w : World) (file_path review_type : String)
    (g : Option String) : HOut :=
  if !w.pathExists file_path then
    ⟨.ok [⟨"❌ File not found: " ++ file_path⟩], g, [], [], []⟩
  else
    match w.readFile file_path with
    | .error e => ⟨.ok [⟨"❌ Error during code review: " ++ e.msg⟩], g, [], [], []⟩
    | .ok code_content =>
      let prompt := reviewPrompt review_type file_path code_content
      let ro := run_gemini_command w ["--prompt", prompt] none 90 g
      let inv := [(["--prompt", prompt], 90)]
      match ro.result with
      | .error e =>
        ⟨.ok [⟨"❌ Error during code review: " ++ e.msg⟩], ro.gstate, inv, ro.spawned, []⟩
      | .ok result =>
        if result.returncode = 0 then
          ⟨.ok [⟨"✅ Code review completed!\n\nFile: " ++ (file_path ++ ("\nReview Type: " ++ (review_type ++ ("\n\nGemini Analysis:\n" ++ result.stdout))))⟩],
           ro.gstate, inv, ro.spawned, []⟩
        else
          ⟨.ok [⟨"❌ Code review failed: " ++ pyOr result.stderr "Unknown error"⟩],
           ro.gstate, inv, ro.spawned, []⟩

/-- `review_code_handler` (lines 236-338): the required `file_path` and the
defaulted `review_type` are extracted before the `try` block, so a missing
`file_path` raises `KeyError` out of the handler. -/
def review_code_handler (w : World) (args : Args) (g : Option String) : HOut :=
  match getItem args "file_path" with
  | .error e => ⟨.error e, g, [], [], []⟩
  | .ok v =>
    review_code_body w (asString v)
      (asString (argsGet args "review_type" (.str "general"))) g

/-- Body of `generate_tests_handler`'s `try` block (lines 345-414).  A save
failure downgrades to a `✅` payload with a warning; a `makedirs` failure is
caught by the outer `except`. -/
def generate_tests_body (w : World) (source_file test_framework coverage_level : String)
    (g : Option String) : HOut :=
  if !w.pathExists source_file then
    ⟨.ok [⟨"❌ Source file not found: " ++ source_file⟩], g, [], [], []⟩
  else
    match w.readFile source_file with
    | .error e => ⟨.ok [⟨"❌ Error generating tests: " ++ e.msg⟩], g, [], [], []⟩
    | .ok source_code =>
      let prompt := generateTestsPrompt source_file test_framework coverage_level source_code
      let ro := run_gemini_command w ["--prompt", prompt] none 120 g
      let inv := [(["--prompt", prompt], 120)]
      match ro.result with
      | .error e =>
        ⟨.ok [⟨"❌ Error generating tests: " ++ e.msg⟩], ro.gstate, inv, ro.spawned, []⟩
      | .ok result =>
        if result.returncode = 0 then
          let tfp := test_file_path source_file
          match w.makedirs "./tests" with
          | .error e =>
            ⟨.ok [⟨"❌ Error generating tests: " ++ e.msg⟩], ro.gstate, inv, ro.spawned, []⟩
          | .ok _ =>
            match w.writeFile tfp result.stdout with
            | .ok _ =>
              ⟨.ok [⟨"✅ Test cases generated and saved!\n\nSource: " ++ (source_file ++ ("\nTest File: " ++ (tfp ++ ("\nFramework: " ++ (test_framework ++ ("\nCoverage: " ++ (coverage_level ++ ("\n\nGenerated Tests:\n" ++ result.stdout))))))))⟩],
               ro.gstate, inv, ro.spawned, [(tfp, result.stdout)]⟩
            | .error e =>
              ⟨.ok [⟨"✅ Test cases generated!\n\nSource: " ++ (source_file ++ ("\nFramework: " ++ (test_framework ++ ("\nCoverage: " ++ (coverage_level ++ ("\n\nNote: Could not save to file (" ++ (e.msg ++ ("), but here are the tests:\n" ++ result.stdout))))))))⟩],
               ro.gstate, inv, ro.spawned, []⟩
        else
          ⟨.ok [⟨"❌ Test generation failed: " ++ pyOr result.stderr "Unknown error"⟩],
           ro.gstate, inv, ro.spawned, []⟩

/-- `generate_tests_handler` (lines 340-414); `source_file` is extracted
before the `try` block. -/
def generate_tests_handler (w : World) (args : Args) (g : Option String) : HOut :=
  match getItem args "source_file" with
  | .error e => ⟨.error e, g, [], [], []⟩
  | .ok v =>
    generate_tests_body w (asString v)
      (asString (argsGet args "test_framework" (.str "jest")))
      (asString (argsGet args "coverage_level" (.str "comprehensive"))) g

/-- The extension glob patterns expanded for a directory audit
(line 425). -/
def auditPatterns : List String :=
  ["**/*.js", "**/*.py", "**/*.ts", "**/*.jsx", "**/*.tsx",
   "**/*.java", "**/*.php", "**/*.rb", "**/*.go"]

/-- The candidate files of a directory audit: all glob matches of every
pattern, concatenated in pattern order (lines 426-428). -/
def globAll (w : World) (target_path : String) : List String :=
  auditPatterns.foldl (fun acc pat => acc ++ w.globMatches target_path pat) []

/-- The `"=" * 80` separator appended after each successful file audit. -/
def eqBar : String := String.mk (List.replicate 80 '=')

/-- The per-file audit loop (lines 437-473), threading the global `PATH`
state through successive invocations.  Returns the accumulated result
entries, the final state, the invoker calls made, and the processes
spawned.  A read or invoker failure is recorded as an inline `❌` entry and
the loop continues with the remaining files. -/
def auditLoop (w : World) : List String → Option String →
    List String × Option String × List (List String × Nat) × List (List String)
  | [], g => ([], g, [], [])
  | f :: rest, g =>
    match w.readFile f with
    | .error e =>
      let (rs, g2, inv, sp) := auditLoop w rest g
      (("❌ Error reading " ++ (f ++ (": " ++ e.msg))) :: rs, g2, inv, sp)
    | .ok content =>
      let prompt := auditPrompt f content
      let ro := run_gemini_command w ["--prompt", prompt] none 60 g
      let entry := match ro.result with
        | .ok r =>
          if r.returncode = 0 then
            "📁 File: " ++ (f ++ ("\n" ++ (r.stdout ++ ("\n" ++ eqBar))))
          else
            "❌ Failed to audit " ++ (f ++ (": " ++ pyOr r.stderr "Unknown error"))
        | .error e => "❌ Error reading " ++ (f ++ (": " ++ e.msg))
      let (rs, g2, inv, sp) := auditLoop w rest ro.gstate
      (entry :: rs, g2, (["--prompt", prompt], 60) :: inv, ro.spawned ++ sp)

/-- The capped audit over a candidate list followed by the summary payload
(lines 432-478): at most 20 files for a `"deep"` audit, 10 otherwise, and a
`✅ Security audit completed!` summary whose `Audited Files` count is the
number of accumulated entries. -/
def auditFiles (w : World) (target_path audit_level : String)
    (files : List String) (g : Option String) : HOut :=
  let max_files : Nat := if audit_level = "deep" then 20 else 10
  let files2 := files.take max_files
  let (audit_results, g2, inv, sp) := auditLoop w files2 g
  ⟨.ok [⟨"✅ Security audit completed!\n\nTarget: " ++ (target_path ++ ("\nAudited Files: " ++ (toString audit_results.length ++ ("\nAudit Level: " ++ (audit_level ++ ("\n\n" ++ String.intercalate "\n\n" audit_results))))))⟩],
   g2, inv, sp, []⟩

/-- Body of `security_audit_handler`'s `try` block (lines 420-478): a file
target is audited alone, a directory target through the glob expansion, and
anything else returns a `❌ Path not found` payload. -/
def security_audit_body (w : World) (target_path audit_level : String)
    (g : Option String) : HOut :=
  if w.isFile target_path then
    auditFiles w target_path audit_level [target_path] g
  else if w.isDir target_path then
    auditFiles w target_path audit_level (globAll w target_path) g
  else
    ⟨.ok [⟨"❌ Path not found: " ++ target_path⟩], g, [], [], []⟩

/-- `security_audit_handler` (lines 416-482); `target_path` is extracted
before the `try` block. -/
def security_audit_handler (w : World) (args : Args) (g : Option String) : HOut :=
  match getItem args "target_path" with
  | .error e => ⟨.error e, g, [], [], []⟩
  | .ok v =>
    security_audit_body w (asString v)
      (asString (argsGet args "audit_level" (.str "quick"))) g

/-- Body of `performance_analysis_handler`'s `try` block (lines 488-531). -/
def performance_analysis_body (w : World) (file_path language : String)
    (g : Option String) : HOut :=
  if !w.pathExists file_path then
    ⟨.ok [⟨"❌ File not found: " ++ file_path⟩], g, [], [], []⟩
  else
    match w.readFile file_path with
    | .error e => ⟨.ok [⟨"❌ Performance analysis error: " ++ e.msg⟩], g, [], [], []⟩
    | .ok code_content =>
      let prompt := performancePrompt language file_path code_content
      let ro := run_gemini_command w ["--prompt", prompt] none 90 g
      let inv := [(["--prompt", prompt], 90)]
      match ro.result with
      | .error e =>
        ⟨.ok [⟨"❌ Performance analysis error: " ++ e.msg⟩], ro.gstate, inv, ro.spawned, []⟩
      | .ok result =>
        if result.returncode = 0 then
          ⟨.ok [⟨"✅ Performance analysis completed!\n\nFile: " ++ (file_path ++ ("\nLanguage: " ++ (language ++ ("\n\nGemini Performance Analysis:\n" ++ result.stdout))))⟩],
           ro.gstate, inv, ro.spawned, []⟩
        else
          ⟨.ok [⟨"❌ Performance analysis failed: " ++ pyOr result.stderr "Unknown error"⟩],
           ro.gstate, inv, ro.spawned, []⟩

/-- `performance_analysis_handler` (lines 484-531); both required keys
`file_path` and `language` are extracted before the `try` block, in that
order. -/
def performance_analysis_handler (w : World) (args : Args) (g : Option String) : HOut :=
  match getItem args "file_path" with
  | .error e => ⟨.error e, g, [], [], []⟩
  | .ok v1 =>
    match getItem args "language" with
    | .error e => ⟨.error e, g, [], [], []⟩
    | .ok v2 => performance_analysis_body w (asString v1) (asString v2) g

/-- Body of `code_quality_report_handler`'s `try` block (lines 537-636).
The directory walk and key-file reads are total observations of the world
(their own exceptions are suppressed in the source by `onerror=None` and a
bare `except: pass`). -/
def code_quality_report_body (w : World) (project_path include_metrics : String)
    (g : Option String) : HOut :=
  if !w.pathExists project_path then
    ⟨.ok [⟨"❌ Project path not found: " ++ project_path⟩], g, [], [], []⟩
  else
    let structure_summary := w.structureSummary project_path
    let config_content := w.configContent project_path
    let prompt := qualityPrompt project_path include_metrics structure_summary config_content
    let ro := run_gemini_command w ["--prompt", prompt] none 150 g
    let inv := [(["--prompt", prompt], 150)]
    match ro.result with
    | .error e =>
      ⟨.ok [⟨"❌ Quality report error: " ++ e.msg⟩], ro.gstate, inv, ro.spawned, []⟩
    | .ok result =>
      if result.returncode = 0 then
        ⟨.ok [⟨"✅ Code quality report generated!\n\nProject: " ++ (project_path ++ ("\nMetrics Included: " ++ (include_metrics ++ ("\n\nGemini Quality Report:\n" ++ result.stdout))))⟩],
         ro.gstate, inv, ro.spawned, []⟩
      else
        ⟨.ok [⟨"❌ Quality report generation failed: " ++ pyOr result.stderr "Unknown error"⟩],
         ro.gstate, inv, ro.spawned, []⟩

/-- `code_quality_report_handler` (lines 533-636); `project_path` is
extracted before the `try` block. -/
def code_quality_report_handler (w : World) (args : Args) (g : Option String) : HOut :=
  match getItem args "project_path" with
  | .error e => ⟨.error e, g, [], [], []⟩
  | .ok v =>
    code_quality_report_body w (asString v)
      (asString (argsGet args "include_metrics" (.bool true))) g

/-- Body of `ask_gemini_handler`'s `try` block (lines 642-668): the only
handler with dedicated `except` clauses — `TimeoutExpired` maps to a `⏰`
payload, `FileNotFoundError` and the catch-all to `❌` payloads. -/
def ask_gemini_body (w : World) (prompt : String) (include_all_files : Bool)
    (g : Option String) : HOut :=
  let cmd_args := ["--prompt", prompt] ++ (if include_all_files then ["--all_files"] else [])
  let ro := run_gemini_command w cmd_args none 120 g
  let inv := [(cmd_args, 120)]
  match ro.result with
  | .ok result =>
    if result.returncode = 0 then
      ⟨.ok [⟨"✅ Gemini Response:\n\n" ++ result.stdout⟩], ro.gstate, inv, ro.spawned, []⟩
    else
      ⟨.ok [⟨"❌ Gemini Error:\n" ++ pyOr result.stderr "Unknown error occurred"⟩],
       ro.gstate, inv, ro.spawned, []⟩
  | .error e =>
    match e.kind with
    | .timeout =>
      ⟨.ok [⟨"⏰ Gemini request timed out"⟩], ro.gstate, inv, ro.spawned, []⟩
    | .fileNotFound =>
      ⟨.ok [⟨"❌ Gemini CLI not found: " ++ e.msg⟩], ro.gstate, inv, ro.spawned, []⟩
    | _ =>
      ⟨.ok [⟨"❌ Error: " ++ e.msg⟩], ro.gstate, inv, ro.spawned, []⟩

/-- `ask_gemini_handler` (lines 638-668); `prompt` is extracted before the
`try` block, `include_all_files` defaults to `False` and is used by
truthiness. -/
def ask_gemini_handler (w : World) (args : Args) (g : Option String) : HOut :=
  match getItem args "prompt" with
  | .error e => ⟨.error e, g, [], [], []⟩
  | .ok v =>
    ask_gemini_body w (asString v)
      (truthy (argsGet args "include_all_files" (.bool false))) g

/-- One declared tool of the catalog: its name and required argument keys
(the full JSON schemas carry no behaviour beyond protocol-side
validation). -/
structure ToolDecl where
  name : String
  required : List String
deriving DecidableEq, Repr

/-- The static tool catalog advertised by `list_tools` (lines 141-217). -/
def list_tools : List ToolDecl :=
  [⟨"review_code", ["file_path"]⟩,
   ⟨"generate_tests", ["source_file"]⟩,
   ⟨"security_audit", ["target_path"]⟩,
   ⟨"performance_analysis", ["file_path", "language"]⟩,
   ⟨"code_quality_report", ["project_path"]⟩,
   ⟨"ask_gemini", ["prompt"]⟩]

/-- The six declared tool names. -/
def toolNames : List String := list_tools.map (·.name)

/-- `call_tool` (lines 219-234): exact-name dispatch to one of the six
handlers; any other name raises `ValueError(f"Unknown tool: {name}")`. -/
def call_tool (w : World) (name : String) (args : Args) (g : Option String) : HOut :=
  if name = "review_code" then review_code_handler w args g
  else if name = "generate_tests" then generate_tests_handler w args g
  else if name = "security_audit" then security_audit_handler w args g
  else if name = "performance_analysis" then performance_analysis_handler w args g
  else if name = "code_quality_report" then code_quality_report_handler w args g
  else if name = "ask_gemini" then ask_gemini_handler w args g
  else ⟨.error ⟨.valueError, "Unknown tool: " ++ name⟩, g, [], [], []⟩

/-! ## Concrete test environments used by counterexamples and witnesses -/

/-- A world where every filesystem check succeeds and the assistant
answers with exit code 0. -/
def wOk : World where
  pathExists := fun _ => true
  isFile := fun _ => true
  isDir := fun _ => false
  isExecutable := fun _ => true
  readFile := fun _ => .ok "print(1)"
  writeFile := fun _ _ => .ok ()
  makedirs := fun _ => .ok ()
  globMatches := fun _ _ => []
  run := fun _ _ _ _ => .ok ⟨0, "all good", ""⟩
  which := fun _ => none
  expandedHome := "/home/user"
  structureSummary := fun _ => "project/"
  configContent := fun _ => "cfg"

/-- A world where nothing exists: executable resolution fails on every
candidate. -/
def wNone : World :=
  { wOk with
    pathExists := fun _ => false
    isFile := fun _ => false
    isExecutable := fun _ => false
    run := fun _ _ _ _ => .error ⟨.otherExc, "unreachable"⟩ }

/-- A world whose assistant invocation raises `TimeoutExpired`. -/
def wTimeout : World :=
  { wOk with run := fun _ _ _ _ => .error ⟨.timeout, "Command timed out after 120 seconds"⟩ }

/-- A world whose assistant runs but exits non-zero with stderr output. -/
def wFail : World :=
  { wOk with run := fun _ _ _ _ => .ok ⟨1, "", "boom"⟩ }

/-- A world with an existing directory target and no matching files. -/
def wDir : World :=
  { wNone with isDir := fun _ => true }

/-- An argument mapping from an association list. -/
def argsOf (l : List (String × PyVal)) : Args :=
  fun k => (l.find? (fun p => p.1 = k)).map (·.2)

/-- The empty argument mapping (every key missing). -/
def argsNone : Args := fun _ => none

/-! ## String and list toolkit lemmas -/

theorem isPrefixL_append : ∀ (p a b : List Char),
    isPrefixL p a = true → isPrefixL p (a ++ b) = true
  | [], _, _, _ => rfl
  | _ :: _, [], _, h => by simp [isPrefixL] at h
  | c :: cs, d :: ds, b, h => by
    simp only [isPrefixL, Bool.and_eq_true] at h
    simp only [List.cons_append, isPrefixL, Bool.and_eq_true]
    exact ⟨h.1, isPrefixL_append cs ds b h.2⟩

theorem isPrefixL_refl_append : ∀ (l r : List Char), isPrefixL l (l ++ r) = true
  | [], _ => rfl
  | c :: cs, r => by
    simp only [List.cons_append, isPrefixL, Bool.and_eq_true]
    exact ⟨by simp, isPrefixL_refl_append cs r⟩

theorem isPrefixL_trans : ∀ (a b c : List Char),
    isPrefixL a b = true → isPrefixL b c = true → isPrefixL a c = true
  | [], _, _, _, _ => rfl
  | _ :: _, [], _, h, _ => by simp [isPrefixL] at h
  | _ :: _, _ :: _, [], _, h2 => by simp [isPrefixL] at h2
  | x :: xs, y :: ys, z :: zs, h1, h2 => by
    simp only [isPrefixL, Bool.and_eq_true, beq_iff_eq] at *
    exact ⟨h1.1.trans h2.1, isPrefixL_trans xs ys zs h1.2 h2.2⟩

theorem strStarts_append_left (p a b : String) (h : strStarts p a) :
    strStarts p (a ++ b) := by
  unfold strStarts at *
  rw [String.data_append]
  exact isPrefixL_append _ _ _ h

theorem isInfixL_of_isPrefixL (s l : List Char) (h : isPrefixL s l = true) :
    isInfixL s l = true := by
  cases l with
  | nil => simpa [isInfixL] using h
  | cons c t => simp [isInfixL, h]

theorem isInfixL_cons (s : List Char) (c : Char) (l : List Char)
    (h : isInfixL s l = true) : isInfixL s (c :: l) = true := by
  simp [isInfixL, h]

theorem isInfixL_append_left (s : List Char) : ∀ (m l : List Char),
    isInfixL s l = true → isInfixL s (m ++ l) = true
  | [], _, h => h
  | c :: cs, l, h => by
    simpa using isInfixL_cons s c (cs ++ l) (isInfixL_append_left s cs l h)

theorem strContains_append (lit p a sub b : String)
    (h : lit.data = a.data ++ sub.data ++ b.data) :
    strContains (lit ++ p) sub := by
  refine ⟨a.data, b.data ++ p.data, ?_⟩
  rw [String.data_append, h, List.append_assoc, List.append_assoc]

/-! ## Properties of the PATH construction -/

theorem isSubstr_pathStep_self (acc d : String) :
    isSubstr d (pathStep acc d) = true := by
  unfold pathStep
  split
  · assumption
  · unfold isSubstr
    rw [String.data_append, String.data_append, List.append_assoc]
    exact isInfixL_of_isPrefixL _ _ (isPrefixL_refl_append _ _)

theorem isSubstr_pathStep_mono (s acc d : String) (h : isSubstr s acc = true) :
    isSubstr s (pathStep acc d) = true := by
  unfold pathStep
  split
  · exact h
  · unfold isSubstr at *
    rw [String.data_append, String.data_append, List.append_assoc]
    exact isInfixL_append_left _ _ _ (isInfixL_append_left _ _ _ h)

theorem isSubstr_foldl (dirs : List String) : ∀ (acc s : String),
    isSubstr s acc = true → isSubstr s (dirs.foldl pathStep acc) = true := by
  induction dirs with
  | nil => exact fun _ _ h => h
  | cons d rest ih =>
    intro acc s h
    exact ih _ _ (isSubstr_pathStep_mono _ _ _ h)

theorem isSubstr_foldl_mem (dirs : List String) : ∀ (acc d : String),
    d ∈ dirs → isSubstr d (dirs.foldl pathStep acc) = true := by
  induction dirs with
  | nil => intro _ _ h; cases h
  | cons d0 rest ih =>
    intro acc d h
    rcases List.mem_cons.mp h with rfl | hm
    · exact isSubstr_foldl rest _ _ (isSubstr_pathStep_self acc d)
    · exact ih _ _ hm

theorem foldl_pathStep_id (dirs : List String) : ∀ acc : String,
    (∀ d ∈ dirs, isSubstr d acc = true) → dirs.foldl pathStep acc = acc := by
  induction dirs with
  | nil => intro _ _; rfl
  | cons d rest ih =>
    intro acc h
    have hd : pathStep acc d = acc := by
      unfold pathStep; rw [if_pos (h d (List.mem_cons_self d rest))]
    rw [List.foldl_cons, hd]
    exact ih acc (fun x hx => h x (List.mem_cons_of_mem d hx))

/-- The PATH prepend is idempotent: rebuilding from the constructed PATH
adds nothing. -/
theorem buildPATH_idem (w : World) (c : String) :
    buildPATH w (buildPATH w c) = buildPATH w c := by
  unfold buildPATH
  set B := (additional_paths w).foldl pathStep (pathStep c npm_bin_path) with hB
  have hnpm : isSubstr npm_bin_path B = true := by
    rw [hB]; exact isSubstr_foldl _ _ _ (isSubstr_pathStep_self c npm_bin_path)
  have h1 : pathStep B npm_bin_path = B := by
    unfold pathStep; rw [if_pos hnpm]
  rw [h1]
  exact foldl_pathStep_id _ _ (fun d hd => isSubstr_foldl_mem _ _ _ hd)

theorem pathStep_suffix (acc d : String) :
    ∃ p, (pathStep acc d).data = p ++ acc.data := by
  unfold pathStep
  split
  · exact ⟨[], rfl⟩
  · exact ⟨(d ++ ":").data, by rw [String.data_append]⟩

theorem foldl_pathStep_suffix (dirs : List String) : ∀ acc : String,
    ∃ p, (dirs.foldl pathStep acc).data = p ++ acc.data := by
  induction dirs with
  | nil => exact fun _ => ⟨[], rfl⟩
  | cons d rest ih =>
    intro acc
    obtain ⟨q, hq⟩ := pathStep_suffix acc d
    obtain ⟨p, hp⟩ := ih (pathStep acc d)
    exact ⟨p ++ q, by rw [List.foldl_cons, hp, hq, List.append_assoc]⟩

/-- The original PATH string survives unchanged as a suffix of the
constructed PATH (existing entries keep their order). -/
theorem buildPATH_suffix (w : World) (c : String) :
    ∃ p, (buildPATH w c).data = p ++ c.data := by
  unfold buildPATH
  obtain ⟨q, hq⟩ := pathStep_suffix c npm_bin_path
  obtain ⟨p, hp⟩ := foldl_pathStep_suffix (additional_paths w) (pathStep c npm_bin_path)
  exact ⟨p ++ q, by rw [hp, hq, List.append_assoc]⟩

theorem splitC_ne_nil : ∀ l : List Char, splitC l ≠ [] := by
  intro l
  cases l with
  | nil => simp [splitC]
  | cons c t =>
    simp only [splitC]
    split
    · simp
    · split <;> simp

theorem splitC_head_isPrefixL : ∀ (l h : List Char) (t2 : List (List Char)),
    splitC l = h :: t2 → isPrefixL h l = true := by
  intro l
  induction l with
  | nil =>
    intro h t2 he
    simp only [splitC] at he
    cases he
    rfl
  | cons c t ih =>
    intro h t2 he
    by_cases hc : c = ':'
    · simp only [splitC, if_pos hc] at he
      cases he
      rfl
    · cases hs : splitC t with
      | nil => exact absurd hs (splitC_ne_nil t)
      | cons h0 t0 =>
        simp only [splitC, if_neg hc, hs, List.cons.injEq] at he
        obtain ⟨he1, -⟩ := he
        subst he1
        simp only [isPrefixL, Bool.and_eq_true]
        exact ⟨by simp, ih h0 t0 hs⟩

theorem mem_splitC_substr : ∀ (l x : List Char),
    x ∈ splitC l → isInfixL x l = true := by
  intro l
  induction l with
  | nil =>
    intro x hx
    simp only [splitC, List.mem_singleton] at hx
    subst hx
    rfl
  | cons c t ih =>
    intro x hx
    by_cases hc : c = ':'
    · simp only [splitC, if_pos hc, List.mem_cons] at hx
      rcases hx with rfl | hx
      · rfl
      · exact isInfixL_cons _ _ _ (ih x hx)
    · cases hs : splitC t with
      | nil => exact absurd hs (splitC_ne_nil t)
      | cons h0 t0 =>
        simp only [splitC, if_neg hc, hs, List.mem_cons] at hx
        rcases hx with rfl | hx
        · apply isInfixL_of_isPrefixL
          simp only [isPrefixL, Bool.and_eq_true]
          exact ⟨by simp, splitC_head_isPrefixL t h0 t0 hs⟩
        · refine isInfixL_cons _ _ _ (ih x ?_)
          rw [hs]
          exact List.mem_cons_of_mem h0 hx

theorem splitC_append_colon : ∀ (d : List Char), ':' ∉ d →
    ∀ rest : List Char, splitC (d ++ ':' :: rest) = d :: splitC rest := by
  intro d
  induction d with
  | nil => intro _ rest; simp [splitC]
  | cons c cs ih =>
    intro hd rest
    have hc : ¬ c = ':' := fun h => hd (h ▸ List.mem_cons_self _ _)
    have hcs : ':' ∉ cs := fun h => hd (List.mem_cons_of_mem _ h)
    simp only [List.cons_append, splitC, if_neg hc]
    show (match splitC (cs ++ ':' :: rest) with
          | [] => [[c]]
          | h :: t2 => (c :: h) :: t2) = (c :: cs) :: splitC rest
    rw [ih hcs rest]

theorem pathStep_nodup (acc d : String) (hd : ':' ∉ d.data)
    (h : (splitC acc.data).Nodup) : (splitC (pathStep acc d).data).Nodup := by
  unfold pathStep
  split
  · exact h
  · rename_i hns
    have hdata : (d ++ ":" ++ acc).data = d.data ++ ':' :: acc.data := by
      rw [String.data_append, String.data_append]
      simp
    rw [hdata, splitC_append_colon d.data hd acc.data]
    refine List.nodup_cons.mpr ⟨?_, h⟩
    intro hmem
    exact hns (mem_splitC_substr acc.data d.data hmem)

theorem foldl_pathStep_nodup (dirs : List String) : ∀ acc : String,
    (∀ d ∈ dirs, ':' ∉ d.data) → (splitC acc.data).Nodup →
    (splitC ((dirs.foldl pathStep acc)).data).Nodup := by
  induction dirs with
  | nil => exact fun _ _ h => h
  | cons d rest ih =>
    intro acc hc h
    rw [List.foldl_cons]
    exact ih _ (fun x hx => hc x (List.mem_cons_of_mem d hx))
      (pathStep_nodup acc d (hc d (List.mem_cons_self d rest)) h)

/-- The PATH construction introduces no duplicate entries, provided the
expanded home directory contains no colon. -/
theorem buildPATH_nodup (w : World) (c : String)
    (hh : ':' ∉ w.expandedHome.data) (h : (splitC c.data).Nodup) :
    (splitC (buildPATH w c).data).Nodup := by
  unfold buildPATH
  apply foldl_pathStep_nodup
  · intro d hd
    simp only [additional_paths, List.mem_cons, List.not_mem_nil, or_false] at hd
    rcases hd with rfl | rfl | rfl | rfl | rfl
    · decide
    · decide
    · decide
    · rw [String.data_append]
      intro hmem
      rcases List.mem_append.mp hmem with hl | hr
      · exact hh hl
      · exact absurd hr (by decide)
    · decide
  · exact pathStep_nodup c npm_bin_path (by decide) h

/-! ## Handler case analyses -/

/-- Payload discipline of `ask_gemini_handler`: a status glyph, except for
the dedicated timeout message. -/
def glyphOrTimeout (m : String) : Prop :=
  glyphOk m ∨ m = "⏰ Gemini request timed out"

theorem review_code_body_spec (w : World) (fp rt : String) (g : Option String) :
    ∃ m, (review_code_body w fp rt g).res = .ok [⟨m⟩] ∧ glyphOk m := by
  simp only [review_code_body]
  repeat' split
  all_goals first
    | exact ⟨_, rfl, Or.inl (strStarts_append_left _ _ _ (by decide))⟩
    | exact ⟨_, rfl, Or.inr (strStarts_append_left _ _ _ (by decide))⟩

theorem generate_tests_body_spec (w : World) (sf tf cl : String) (g : Option String) :
    ∃ m, (generate_tests_body w sf tf cl g).res = .ok [⟨m⟩] ∧ glyphOk m := by
  simp only [generate_tests_body]
  repeat' split
  all_goals first
    | exact ⟨_, rfl, Or.inl (strStarts_append_left _ _ _ (by decide))⟩
    | exact ⟨_, rfl, Or.inr (strStarts_append_left _ _ _ (by decide))⟩

theorem auditFiles_res (w : World) (t lvl : String) (files : List String)
    (g : Option String) :
    ∃ m, (auditFiles w t lvl files g).res = .ok [⟨m⟩] ∧
      strStarts "✅ Security audit completed!" m := by
  unfold auditFiles
  rcases hA : auditLoop w (files.take (if lvl = "deep" then 20 else 10)) g
    with ⟨rs, g2, invs, sp⟩
  exact ⟨_, rfl, strStarts_append_left _ _ _ (by decide)⟩

theorem security_audit_body_spec (w : World) (t lvl : String) (g : Option String) :
    ∃ m, (security_audit_body w t lvl g).res = .ok [⟨m⟩] ∧ glyphOk m := by
  unfold security_audit_body
  split
  · obtain ⟨m, hm, hs⟩ := auditFiles_res w t lvl [t] g
    exact ⟨m, hm, Or.inl (by
      have h1 : strStarts "✅" "✅ Security audit completed!" := by decide
      unfold strStarts at *
      exact isPrefixL_trans _ _ _ h1 hs)⟩
  · split
    · obtain ⟨m, hm, hs⟩ := auditFiles_res w t lvl (globAll w t) g
      exact ⟨m, hm, Or.inl (by
        have h1 : strStarts "✅" "✅ Security audit completed!" := by decide
        unfold strStarts at *
        exact isPrefixL_trans _ _ _ h1 hs)⟩
    · exact ⟨_, rfl, Or.inr (strStarts_append_left _ _ _ (by decide))⟩

theorem performance_analysis_body_spec (w : World) (fp lang : String) (g : Option String) :
    ∃ m, (performance_analysis_body w fp lang g).res = .ok [⟨m⟩] ∧ glyphOk m := by
  simp only [performance_analysis_body]
  repeat' split
  all_goals first
    | exact ⟨_, rfl, Or.inl (strStarts_append_left _ _ _ (by decide))⟩
    | exact ⟨_, rfl, Or.inr (strStarts_append_left _ _ _ (by decide))⟩

theorem code_quality_report_body_spec (w : World) (pp im : String) (g : Option String) :
    ∃ m, (code_quality_report_body w pp im g).res = .ok [⟨m⟩] ∧ glyphOk m := by
  simp only [code_quality_report_body]
  repeat' split
  all_goals first
    | exact ⟨_, rfl, Or.inl (strStarts_append_left _ _ _ (by decide))⟩
    | exact ⟨_, rfl, Or.inr (strStarts_append_left _ _ _ (by decide))⟩

theorem ask_gemini_body_spec (w : World) (p : String) (iaf : Bool) (g : Option String) :
    ∃ m, (ask_gemini_body w p iaf g).res = .ok [⟨m⟩] ∧ glyphOrTimeout m := by
  simp only [ask_gemini_body]
  repeat' split
  all_goals first
    | exact ⟨_, rfl, Or.inl (Or.inl (strStarts_append_left _ _ _ (by decide)))⟩
    | exact ⟨_, rfl, Or.inl (Or.inr (strStarts_append_left _ _ _ (by decide)))⟩
    | exact ⟨_, rfl, Or.inr rfl⟩

theorem review_code_handler_ok (w : World) (args : Args) (g : Option String)
    (v : PyVal) (h : args "file_path" = some v) :
    ∃ m, (review_code_handler w args g).res = .ok [⟨m⟩] ∧ glyphOk m := by
  unfold review_code_handler getItem
  rw [h]
  exact review_code_body_spec w _ _ g

theorem generate_tests_handler_ok (w : World) (args : Args) (g : Option String)
    (v : PyVal) (h : args "source_file" = some v) :
    ∃ m, (generate_tests_handler w args g).res = .ok [⟨m⟩] ∧ glyphOk m := by
  unfold generate_tests_handler getItem
  rw [h]
  exact generate_tests_body_spec w _ _ _ g

theorem security_audit_handler_ok (w : World) (args : Args) (g : Option String)
    (v : PyVal) (h : args "target_path" = some v) :
    ∃ m, (security_audit_handler w args g).res = .ok [⟨m⟩] ∧ glyphOk m := by
  unfold security_audit_handler getItem
  rw [h]
  exact security_audit_body_spec w _ _ g

theorem performance_analysis_handler_ok (w : World) (args : Args) (g : Option String)
    (v1 v2 : PyVal) (h1 : args "file_path" = some v1) (h2 : args "language" = some v2) :
    ∃ m, (performance_analysis_handler w args g).res = .ok [⟨m⟩] ∧ glyphOk m := by
  unfold performance_analysis_handler getItem
  rw [h1, h2]
  exact performance_analysis_body_spec w _ _ g

theorem code_quality_report_handler_ok (w : World) (args : Args) (g : Option String)
    (v : PyVal) (h : args "project_path" = some v) :
    ∃ m, (code_quality_report_handler w args g).res = .ok [⟨m⟩] ∧ glyphOk m := by
  unfold code_quality_report_handler getItem
  rw [h]
  exact code_quality_report_body_spec w _ _ g

theorem ask_gemini_handler_ok (w : World) (args : Args) (g : Option String)
    (v : PyVal) (h : args "prompt" = some v) :
    ∃ m, (ask_gemini_handler w args g).res = .ok [⟨m⟩] ∧ glyphOrTimeout m := by
  unfold ask_gemini_handler getItem
  rw [h]
  exact ask_gemini_body_spec w _ _ g

/-! ## Executable resolution -/

theorem findLoop_eq_find? (w : World) : ∀ ls : List (Option String),
    findLoop w ls = (ls.filterMap id).find? (fun p => validExe w p) := by
  intro ls
  induction ls with
  | nil => rfl
  | cons o rest ih =>
    cases o with
    | none => simpa [findLoop, List.filterMap_cons] using ih
    | some p =>
      have hfm : List.filterMap id (some p :: rest) = p :: List.filterMap id rest := by
        simp
      by_cases hv : validExe w p = true
      · rw [hfm, List.find?_cons_of_pos _ hv]
        simp [findLoop, hv]
      · rw [hfm, List.find?_cons_of_neg _ (by simpa using hv)]
        simpa [findLoop, hv] using ih

theorem resolveGemini_retry (w : World) (g : Option String) (envPATH : String)
    (h : findLoop w (gemini_locations w g) = none) :
    resolveGemini w g envPATH = w.which (some envPATH) := by
  unfold resolveGemini
  rw [h]

theorem resolveGemini_hit (w : World) (g : Option String) (envPATH : String)
    (p : String) (h : findLoop w (gemini_locations w g) = some p) :
    resolveGemini w g envPATH = some p := by
  unfold resolveGemini
  rw [h]

theorem run_gemini_not_found (w : World) (args : List String) (wd : Option String)
    (t : Nat) (g : Option String)
    (h : resolveGemini w g (buildPATH w (g.getD "")) = none) :
    (run_gemini_command w args wd t g).result =
      .error ⟨.fileNotFound,
        "Gemini CLI executable not found. Please ensure it's installed via npm."⟩ ∧
    (run_gemini_command w args wd t g).spawned = [] := by
  constructor <;> simp [run_gemini_command, h]

theorem run_gemini_gstate (w : World) (args : List String) (wd : Option String)
    (t : Nat) (g : Option String) :
    (run_gemini_command w args wd t g).gstate = g ∨
    (run_gemini_command w args wd t g).gstate = some (g.getD "") := by
  cases hf : findLoop w (gemini_locations w g) with
  | some p =>
    left
    simp [run_gemini_command, resolveGemini, hf]
  | none =>
    right
    simp only [run_gemini_command, resolveGemini, hf]
    cases w.which (some (buildPATH w (g.getD ""))) <;> rfl

/-! ## Audit loop accounting -/

theorem auditLoop_results_length (w : World) : ∀ (files : List String) (g : Option String),
    (auditLoop w files g).1.length = files.length := by
  intro files
  induction files with
  | nil => intro _; rfl
  | cons f rest ih =>
    intro g
    unfold auditLoop
    cases hr : w.readFile f with
    | error e =>
      have hlen := ih g
      rcases hA : auditLoop w rest g with ⟨rs, g2, invs, sp⟩
      rw [hA] at hlen
      simpa using hlen
    | ok c =>
      dsimp only
      have hlen := ih (run_gemini_command w ["--prompt", auditPrompt f c] none 60 g).gstate
      rcases hA : auditLoop w rest
          (run_gemini_command w ["--prompt", auditPrompt f c] none 60 g).gstate
        with ⟨rs, g2, invs, sp⟩
      rw [hA] at hlen
      simpa using hlen

theorem auditLoop_invoked_length (w : World) : ∀ (files : List String) (g : Option String),
    (auditLoop w files g).2.2.1.length ≤ files.length := by
  intro files
  induction files with
  | nil => intro _; exact Nat.le_refl 0
  | cons f rest ih =>
    intro g
    unfold auditLoop
    cases hr : w.readFile f with
    | error e =>
      have hlen := ih g
      rcases hA : auditLoop w rest g with ⟨rs, g2, invs, sp⟩
      rw [hA] at hlen
      simpa using Nat.le_succ_of_le hlen
    | ok c =>
      dsimp only
      have hlen := ih (run_gemini_command w ["--prompt", auditPrompt f c] none 60 g).gstate
      rcases hA : auditLoop w rest
          (run_gemini_command w ["--prompt", auditPrompt f c] none 60 g).gstate
        with ⟨rs, g2, invs, sp⟩
      rw [hA] at hlen
      simpa using Nat.succ_le_succ hlen

theorem auditFiles_invoked_bound (w : World) (t lvl : String) (files : List String)
    (g : Option String) :
    (auditFiles w t lvl files g).invoked.length ≤ (if lvl = "deep" then 20 else 10) := by
  unfold auditFiles
  dsimp only
  have h1 := auditLoop_invoked_length w (files.take (if lvl = "deep" then 20 else 10)) g
  rcases hA : auditLoop w (files.take (if lvl = "deep" then 20 else 10)) g
    with ⟨rs, g2, invs, sp⟩
  rw [hA] at h1
  exact le_trans (by simpa using h1) (List.length_take_le _ _)

/-! ## Non-zero-exit failure payloads -/

theorem review_code_body_fail (w : World) (fp rt : String) (g : Option String)
    (c : String) (r : ProcResult)
    (h1 : w.pathExists fp = true) (h2 : w.readFile fp = .ok c)
    (h3 : (run_gemini_command w ["--prompt", reviewPrompt rt fp c] none 90 g).result = .ok r)
    (h4 : ¬ r.returncode = 0) :
    (review_code_body w fp rt g).res =
      .ok [⟨"❌ Code review failed: " ++ pyOr r.stderr "Unknown error"⟩] := by
  simp [review_code_body, h1, h2, h3, h4]

theorem generate_tests_body_fail (w : World) (sf tf cl : String) (g : Option String)
    (c : String) (r : ProcResult)
    (h1 : w.pathExists sf = true) (h2 : w.readFile sf = .ok c)
    (h3 : (run_gemini_command w ["--prompt", generateTestsPrompt sf tf cl c] none 120 g).result = .ok r)
    (h4 : ¬ r.returncode = 0) :
    (generate_tests_body w sf tf cl g).res =
      .ok [⟨"❌ Test generation failed: " ++ pyOr r.stderr "Unknown error"⟩] := by
  simp [generate_tests_body, h1, h2, h3, h4]

theorem performance_analysis_body_fail (w : World) (fp lang : String) (g : Option String)
    (c : String) (r : ProcResult)
    (h1 : w.pathExists fp = true) (h2 : w.readFile fp = .ok c)
    (h3 : (run_gemini_command w ["--prompt", performancePrompt lang fp c] none 90 g).result = .ok r)
    (h4 : ¬ r.returncode = 0) :
    (performance_analysis_body w fp lang g).res =
      .ok [⟨"❌ Performance analysis failed: " ++ pyOr r.stderr "Unknown error"⟩] := by
  simp [performance_analysis_body, h1, h2, h3, h4]

theorem code_quality_report_body_fail (w : World) (pp im : String) (g : Option String)
    (r : ProcResult)
    (h1 : w.pathExists pp = true)
    (h3 : (run_gemini_command w
      ["--prompt", qualityPrompt pp im (w.structureSummary pp) (w.configContent pp)]
      none 150 g).result = .ok r)
    (h4 : ¬ r.returncode = 0) :
    (code_quality_report_body w pp im g).res =
      .ok [⟨"❌ Quality report generation failed: " ++ pyOr r.stderr "Unknown error"⟩] := by
  simp [code_quality_report_body, h1, h3, h4]

theorem ask_gemini_body_fail (w : World) (p : String) (iaf : Bool) (g : Option String)
    (r : ProcResult)
    (h3 : (run_gemini_command w
      (["--prompt", p] ++ (if iaf then ["--all_files"] else [])) none 120 g).result = .ok r)
    (h4 : ¬ r.returncode = 0) :
    (ask_gemini_body w p iaf g).res =
      .ok [⟨"❌ Gemini Error:\n" ++ pyOr r.stderr "Unknown error occurred"⟩] := by
  simp only [List.cons_append, List.nil_append] at h3
  simp [ask_gemini_body, h3, h4]

/-! ## Claims -/

/-- C1 (counterexample): the claim that every exception raised while
processing a call is caught inside the handler fails for an argument
mapping missing the required `"file_path"` key — the extraction
`args["file_path"]` happens before the handler's `try` block, so the
`KeyError` escapes the handler boundary. -/
theorem C1_counterexample :
    (review_code_handler wOk argsNone none).res =
      .error ⟨.keyError, "'file_path'"⟩ := by
  rfl

/-- C1 (amended): every exception raised inside a handler's `try` block —
i.e. after the required arguments have been extracted — is caught and
converted to a textual payload: whenever the required keys are present in
the argument mapping, each of the six handlers returns normally for every
world and every invoker outcome, and no exception escapes. -/
theorem C1_theorem :
    (∀ (w : World) (args : Args) (g : Option String) (v : PyVal),
      args "file_path" = some v →
      ∃ ms, (review_code_handler w args g).res = .ok ms) ∧
    (∀ (w : World) (args : Args) (g : Option String) (v : PyVal),
      args "source_file" = some v →
      ∃ ms, (generate_tests_handler w args g).res = .ok ms) ∧
    (∀ (w : World) (args : Args) (g : Option String) (v : PyVal),
      args "target_path" = some v →
      ∃ ms, (security_audit_handler w args g).res = .ok ms) ∧
    (∀ (w : World) (args : Args) (g : Option String) (v1 v2 : PyVal),
      args "file_path" = some v1 → args "language" = some v2 →
      ∃ ms, (performance_analysis_handler w args g).res = .ok ms) ∧
    (∀ (w : World) (args : Args) (g : Option String) (v : PyVal),
      args "project_path" = some v →
      ∃ ms, (code_quality_report_handler w args g).res = .ok ms) ∧
    (∀ (w : World) (args : Args) (g : Option String) (v : PyVal),
      args "prompt" = some v →
      ∃ ms, (ask_gemini_handler w args g).res = .ok ms) := by
  refine ⟨?_, ?_, ?_, ?_, ?_, ?_⟩
  · intro w args g v h
    obtain ⟨m, hm, -⟩ := review_code_handler_ok w args g v h
    exact ⟨_, hm⟩
  · intro w args g v h
    obtain ⟨m, hm, -⟩ := generate_tests_handler_ok w args g v h
    exact ⟨_, hm⟩
  · intro w args g v h
    obtain ⟨m, hm, -⟩ := security_audit_handler_ok w args g v h
    exact ⟨_, hm⟩
  · intro w args g v1 v2 h1 h2
    obtain ⟨m, hm, -⟩ := performance_analysis_handler_ok w args g v1 v2 h1 h2
    exact ⟨_, hm⟩
  · intro w args g v h
    obtain ⟨m, hm, -⟩ := code_quality_report_handler_ok w args g v h
    exact ⟨_, hm⟩
  · intro w args g v h
    obtain ⟨m, hm, -⟩ := ask_gemini_handler_ok w args g v h
    exact ⟨_, hm⟩

/-- C1 (witness): concrete calls with the required keys present return
normal payloads in a fully-specified world. -/
theorem C1_witness :
    (∃ ms, (review_code_handler wOk (argsOf [("file_path", .str "a.py")]) none).res = .ok ms) ∧
    (∃ ms, (generate_tests_handler wOk (argsOf [("source_file", .str "foo.py")]) none).res = .ok ms) ∧
    (∃ ms, (security_audit_handler wOk (argsOf [("target_path", .str "src")]) none).res = .ok ms) ∧
    (∃ ms, (performance_analysis_handler wOk
      (argsOf [("file_path", .str "a.py"), ("language", .str "python")]) none).res = .ok ms) ∧
    (∃ ms, (code_quality_report_handler wOk (argsOf [("project_path", .str ".")]) none).res = .ok ms) ∧
    (∃ ms, (ask_gemini_handler wOk (argsOf [("prompt", .str "ping")]) none).res = .ok ms) :=
  ⟨C1_theorem.1 wOk _ none (.str "a.py") rfl,
   C1_theorem.2.1 wOk _ none (.str "foo.py") rfl,
   C1_theorem.2.2.1 wOk _ none (.str "src") rfl,
   C1_theorem.2.2.2.1 wOk _ none (.str "a.py") (.str "python") rfl rfl,
   C1_theorem.2.2.2.2.1 wOk _ none (.str ".") rfl,
   C1_theorem.2.2.2.2.2 wOk _ none (.str "ping") rfl⟩

/-- C2 (counterexample): the claim that every returned payload begins with
`✅` or `❌` fails for `ask_gemini` when the invoker raises
`TimeoutExpired`: the payload is `⏰ Gemini request timed out`, which
begins with neither glyph. -/
theorem C2_counterexample :
    (ask_gemini_handler wTimeout (argsOf [("prompt", .str "ping")]) none).res =
      .ok [⟨"⏰ Gemini request timed out"⟩] ∧
    ¬ glyphOk "⏰ Gemini request timed out" := by
  exact ⟨rfl, by decide⟩

/-- C2 (amended): every handler returns exactly one text payload beginning
with `✅` or `❌` — except `ask_gemini`'s timeout path, whose payload begins
with `⏰` — and on a non-zero assistant exit the failure payload embeds the
captured stderr (or a fixed `Unknown error` text when stderr is empty). -/
theorem C2_theorem :
    (∀ (w : World) (args : Args) (g : Option String) (v : PyVal),
      args "file_path" = some v →
      ∃ m, (review_code_handler w args g).res = .ok [⟨m⟩] ∧ glyphOk m) ∧
    (∀ (w : World) (args : Args) (g : Option String) (v : PyVal),
      args "source_file" = some v →
      ∃ m, (generate_tests_handler w args g).res = .ok [⟨m⟩] ∧ glyphOk m) ∧
    (∀ (w : World) (args : Args) (g : Option String) (v : PyVal),
      args "target_path" = some v →
      ∃ m, (security_audit_handler w args g).res = .ok [⟨m⟩] ∧ glyphOk m) ∧
    (∀ (w : World) (args : Args) (g : Option String) (v1 v2 : PyVal),
      args "file_path" = some v1 → args "language" = some v2 →
      ∃ m, (performance_analysis_handler w args g).res = .ok [⟨m⟩] ∧ glyphOk m) ∧
    (∀ (w : World) (args : Args) (g : Option String) (v : PyVal),
      args "project_path" = some v →
      ∃ m, (code_quality_report_handler w args g).res = .ok [⟨m⟩] ∧ glyphOk m) ∧
    (∀ (w : World) (args : Args) (g : Option String) (v : PyVal),
      args "prompt" = some v →
      ∃ m, (ask_gemini_handler w args g).res = .ok [⟨m⟩] ∧ glyphOrTimeout m) ∧
    (∀ (w : World) (fp rt : String) (g : Option String) (c : String) (r : ProcResult),
      w.pathExists fp = true → w.readFile fp = .ok c →
      (run_gemini_command w ["--prompt", reviewPrompt rt fp c] none 90 g).result = .ok r →
      ¬ r.returncode = 0 →
      (review_code_body w fp rt g).res =
        .ok [⟨"❌ Code review failed: " ++ pyOr r.stderr "Unknown error"⟩]) ∧
    (∀ (w : World) (sf tf cl : String) (g : Option String) (c : String) (r : ProcResult),
      w.pathExists sf = true → w.readFile sf = .ok c →
      (run_gemini_command w ["--prompt", generateTestsPrompt sf tf cl c] none 120 g).result = .ok r →
      ¬ r.returncode = 0 →
      (generate_tests_body w sf tf cl g).res =
        .ok [⟨"❌ Test generation failed: " ++ pyOr r.stderr "Unknown error"⟩]) ∧
    (∀ (w : World) (fp lang : String) (g : Option String) (c : String) (r : ProcResult),
      w.pathExists fp = true → w.readFile fp = .ok c →
      (run_gemini_command w ["--prompt", performancePrompt lang fp c] none 90 g).result = .ok r →
      ¬ r.returncode = 0 →
      (performance_analysis_body w fp lang g).res =
        .ok [⟨"❌ Performance analysis failed: " ++ pyOr r.stderr "Unknown error"⟩]) ∧
    (∀ (w : World) (pp im : String) (g : Option String) (r : ProcResult),
      w.pathExists pp = true →
      (run_gemini_command w
        ["--prompt", qualityPrompt pp im (w.structureSummary pp) (w.configContent pp)]
        none 150 g).result = .ok r →
      ¬ r.returncode = 0 →
      (code_quality_report_body w pp im g).res =
        .ok [⟨"❌ Quality report generation failed: " ++ pyOr r.stderr "Unknown error"⟩]) ∧
    (∀ (w : World) (p : String) (iaf : Bool) (g : Option String) (r : ProcResult),
      (run_gemini_command w (["--prompt", p] ++ (if iaf then ["--all_files"] else []))
        none 120 g).result = .ok r →
      ¬ r.returncode = 0 →
      (ask_gemini_body w p iaf g).res =
        .ok [⟨"❌ Gemini Error:\n" ++ pyOr r.stderr "Unknown error occurred"⟩]) ∧
    (∀ a b : String, a ≠ "" → pyOr a b = a) :=
  ⟨review_code_handler_ok,
   generate_tests_handler_ok,
   security_audit_handler_ok,
   performance_analysis_handler_ok,
   code_quality_report_handler_ok,
   ask_gemini_handler_ok,
   review_code_body_fail,
   generate_tests_body_fail,
   performance_analysis_body_fail,
   code_quality_report_body_fail,
   ask_gemini_body_fail,
   fun a b h => by simp [pyOr, h]⟩

/-- C2 (witness): concrete instantiations of every part of the amended
payload discipline — glyph-prefixed payloads in a succeeding world, and the
exact `❌` failure payloads embedding the captured stderr in a world whose
assistant exits 1 with stderr `boom`. -/
theorem C2_witness :
    (∃ m, (review_code_handler wFail (argsOf [("file_path", .str "a.py")]) none).res = .ok [⟨m⟩] ∧ glyphOk m) ∧
    (∃ m, (generate_tests_handler wFail (argsOf [("source_file", .str "foo.py")]) none).res = .ok [⟨m⟩] ∧ glyphOk m) ∧
    (∃ m, (security_audit_handler wFail (argsOf [("target_path", .str "src")]) none).res = .ok [⟨m⟩] ∧ glyphOk m) ∧
    (∃ m, (performance_analysis_handler wFail
      (argsOf [("file_path", .str "a.py"), ("language", .str "python")]) none).res = .ok [⟨m⟩] ∧ glyphOk m) ∧
    (∃ m, (code_quality_report_handler wFail (argsOf [("project_path", .str ".")]) none).res = .ok [⟨m⟩] ∧ glyphOk m) ∧
    (∃ m, (ask_gemini_handler wFail (argsOf [("prompt", .str "ping")]) none).res = .ok [⟨m⟩] ∧ glyphOrTimeout m) ∧
    (review_code_body wFail "a.py" "general" none).res =
      .ok [⟨"❌ Code review failed: boom"⟩] ∧
    (generate_tests_body wFail "foo.py" "jest" "comprehensive" none).res =
      .ok [⟨"❌ Test generation failed: boom"⟩] ∧
    (performance_analysis_body wFail "a.py" "python" none).res =
      .ok [⟨"❌ Performance analysis failed: boom"⟩] ∧
    (code_quality_report_body wFail "." "True" none).res =
      .ok [⟨"❌ Quality report generation failed: boom"⟩] ∧
    (ask_gemini_body wFail "ping" false none).res =
      .ok [⟨"❌ Gemini Error:\nboom"⟩] ∧
    pyOr "boom" "Unknown error" = "boom" :=
  ⟨C2_theorem.1 wFail _ none (.str "a.py") rfl,
   C2_theorem.2.1 wFail _ none (.str "foo.py") rfl,
   C2_theorem.2.2.1 wFail _ none (.str "src") rfl,
   C2_theorem.2.2.2.1 wFail _ none (.str "a.py") (.str "python") rfl rfl,
   C2_theorem.2.2.2.2.1 wFail _ none (.str ".") rfl,
   C2_theorem.2.2.2.2.2.1 wFail _ none (.str "ping") rfl,
   C2_theorem.2.2.2.2.2.2.1 wFail "a.py" "general" none "print(1)" ⟨1, "", "boom"⟩ rfl rfl rfl (by decide),
   C2_theorem.2.2.2.2.2.2.2.1 wFail "foo.py" "jest" "comprehensive" none "print(1)" ⟨1, "", "boom"⟩ rfl rfl rfl (by decide),
   C2_theorem.2.2.2.2.2.2.2.2.1 wFail "a.py" "python" none "print(1)" ⟨1, "", "boom"⟩ rfl rfl rfl (by decide),
   C2_theorem.2.2.2.2.2.2.2.2.2.1 wFail "." "True" none ⟨1, "", "boom"⟩ rfl rfl (by decide),
   C2_theorem.2.2.2.2.2.2.2.2.2.2.1 wFail "ping" false none ⟨1, "", "boom"⟩ rfl (by decide),
   C2_theorem.2.2.2.2.2.2.2.2.2.2.2 "boom" "Unknown error" (by decide)⟩

/-- C3: the test-generation output file name follows exactly the
spec's extension mapping (`.js/.ts/.jsx/.tsx` give `<base>.test<ext>`,
`.py` gives `test_<base>.py`, `.java` gives `<base>Test.java`, anything
else `<base>_test<ext>`), the file goes under the fixed `./tests`
directory, and on a successful invocation the handler writes the
assistant's stdout to exactly that path. -/
theorem C3_theorem :
    (∀ p : String, test_file_name p =
      specTestName (splitext (basename p)).1 (splitext p).2) ∧
    (∀ p : String, test_file_path p = "./tests/" ++ test_file_name p) ∧
    test_file_path "foo.py" = "./tests/test_foo.py" ∧
    test_file_path "Bar.java" = "./tests/BarTest.java" ∧
    test_file_path "x.ts" = "./tests/x.test.ts" ∧
    (∀ (w : World) (sf tf cl : String) (g : Option String) (c : String) (r : ProcResult),
      w.pathExists sf = true → w.readFile sf = .ok c →
      (run_gemini_command w ["--prompt", generateTestsPrompt sf tf cl c] none 120 g).result = .ok r →
      r.returncode = 0 → w.makedirs "./tests" = .ok () →
      w.writeFile (test_file_path sf) r.stdout = .ok () →
      (generate_tests_body w sf tf cl g).written = [(test_file_path sf, r.stdout)]) := by
  refine ⟨fun p => by simp [test_file_name, specTestName],
    fun p => rfl, by decide, by decide, by decide, ?_⟩
  intro w sf tf cl g c r h1 h2 h3 h4 h5 h6
  simp only [test_file_path] at h6
  simp [generate_tests_body, h1, h2, h3, h4, h5, h6, test_file_path]

/-- C3 (witness): in a world where everything succeeds, generating tests
for `foo.py` writes the assistant output to `./tests/test_foo.py`. -/
theorem C3_witness :
    (generate_tests_body wOk "foo.py" "jest" "comprehensive" none).written =
      [("./tests/test_foo.py", "all good")] :=
  C3_theorem.2.2.2.2.2 wOk "foo.py" "jest" "comprehensive" none "print(1)"
    ⟨0, "all good", ""⟩ rfl rfl rfl rfl rfl rfl

theorem security_audit_body_invoked_bound (w : World) (t lvl : String)
    (g : Option String) :
    (security_audit_body w t lvl g).invoked.length ≤ (if lvl = "deep" then 20 else 10) := by
  unfold security_audit_body
  split
  · exact auditFiles_invoked_bound w t lvl [t] g
  · split
    · exact auditFiles_invoked_bound w t lvl (globAll w t) g
    · simp

/-- C4: however many files the glob expansion yields, a security audit
attempts at most 10 assistant invocations when `audit_level` is
`"quick"` and at most 20 when it is `"deep"`. -/
theorem C4_theorem (w : World) (args : Args) (g : Option String) (v : PyVal)
    (h : args "target_path" = some v) :
    (asString (argsGet args "audit_level" (.str "quick")) = "quick" →
      (security_audit_handler w args g).invoked.length ≤ 10) ∧
    (asString (argsGet args "audit_level" (.str "quick")) = "deep" →
      (security_audit_handler w args g).invoked.length ≤ 20) := by
  unfold security_audit_handler getItem
  rw [h]
  constructor
  · intro hq
    rw [hq]
    simpa using security_audit_body_invoked_bound w (asString v) "quick" g
  · intro hd
    rw [hd]
    simpa using security_audit_body_invoked_bound w (asString v) "deep" g

/-- C4 (witness): concrete quick and deep audits stay within their
caps. -/
theorem C4_witness :
    (security_audit_handler wOk
      (argsOf [("target_path", .str "src"), ("audit_level", .str "quick")]) none).invoked.length ≤ 10 ∧
    (security_audit_handler wOk
      (argsOf [("target_path", .str "src"), ("audit_level", .str "deep")]) none).invoked.length ≤ 20 :=
  ⟨(C4_theorem wOk _ none (.str "src") rfl).1 rfl,
   (C4_theorem wOk _ none (.str "src") rfl).2 rfl⟩

/-- C5: executable resolution scans the fixed candidate list in priority
order and picks the first entry that is non-empty, exists and is
executable (equivalently, `find?` over the flattened candidate list); when
the scan fails it retries the search-path lookup under the newly built
PATH; and when that also fails the invocation returns the
`FileNotFoundError` — whose kind is distinct from a timeout — and spawns
no child process. -/
theorem C5_theorem :
    (∀ (w : World) (g : Option String),
      findLoop w (gemini_locations w g) =
        ((gemini_locations w g).filterMap id).find? (fun p => validExe w p)) ∧
    (∀ (w : World) (g : Option String) (envPATH : String),
      findLoop w (gemini_locations w g) = none →
        resolveGemini w g envPATH = w.which (some envPATH)) ∧
    (∀ (w : World) (g : Option String) (envPATH : String) (p : String),
      findLoop w (gemini_locations w g) = some p →
        resolveGemini w g envPATH = some p) ∧
    (∀ (w : World) (args : List String) (wd : Option String) (t : Nat) (g : Option String),
      resolveGemini w g (buildPATH w (g.getD "")) = none →
        (run_gemini_command w args wd t g).result =
          .error ⟨.fileNotFound,
            "Gemini CLI executable not found. Please ensure it's installed via npm."⟩ ∧
        (run_gemini_command w args wd t g).spawned = [] ∧
        ExcKind.fileNotFound ≠ ExcKind.timeout) :=
  ⟨fun w g => findLoop_eq_find? w (gemini_locations w g),
   fun w g envPATH h => resolveGemini_retry w g envPATH h,
   fun w g envPATH p h => resolveGemini_hit w g envPATH p h,
   fun w args wd t g h =>
     ⟨(run_gemini_not_found w args wd t g h).1,
      (run_gemini_not_found w args wd t g h).2, by decide⟩⟩

/-- C5 (witness): in a world where no candidate exists the invocation
yields the not-found error and spawns nothing; in a world where the first
hard-coded candidate is valid, resolution returns it without consulting
the retry lookup. -/
theorem C5_witness :
    ((run_gemini_command wNone ["--version"] none 10 none).result =
      .error ⟨.fileNotFound,
        "Gemini CLI executable not found. Please ensure it's installed via npm."⟩ ∧
     (run_gemini_command wNone ["--version"] none 10 none).spawned = [] ∧
     ExcKind.fileNotFound ≠ ExcKind.timeout) ∧
    resolveGemini wNone none "/abc" = wNone.which (some "/abc") ∧
    resolveGemini wOk none "/abc" = some "/home/user/.npm-global/bin/gemini" :=
  ⟨C5_theorem.2.2.2 wNone ["--version"] none 10 none rfl,
   C5_theorem.2.1 wNone none "/abc" rfl,
   C5_theorem.2.2.1 wOk none "/abc" "/home/user/.npm-global/bin/gemini" rfl⟩

/-- C6 (counterexample): the claim that the PATH construction skips
exactly the directories already present fails, because the code's check is
a substring test on the whole PATH string: starting from `PATH=/usr/bin`,
`/bin` is skipped (it occurs inside the entry `/usr/bin`) even though it
is not an entry, so the code's result differs from the spec-worded
entry-membership prepend and lacks `/bin` as an entry. -/
theorem C6_counterexample :
    buildPATH wOk "/usr/bin" ≠ buildPATHSpec wOk "/usr/bin" ∧
    "/bin".data ∉ splitC (buildPATH wOk "/usr/bin").data ∧
    "/bin".data ∈ splitC (buildPATHSpec wOk "/usr/bin").data :=
  ⟨by decide, by decide, by decide⟩

/-- C6 (amended): the invoker builds the child PATH by prepending the
fixed candidate directories, skipping any candidate that already occurs as
a substring of the PATH string (which can also skip a directory that is
merely a substring of another entry); the prepend is idempotent
(rebuilding from the result adds nothing), keeps the original PATH as an
unchanged suffix, and introduces no duplicate entries. -/
theorem C6_theorem :
    (∀ (w : World) (c : String), buildPATH w (buildPATH w c) = buildPATH w c) ∧
    (∀ (w : World) (c : String), ∃ p, (buildPATH w c).data = p ++ c.data) ∧
    (∀ (w : World) (c : String), ':' ∉ w.expandedHome.data →
      (splitC c.data).Nodup → (splitC (buildPATH w c).data).Nodup) :=
  ⟨buildPATH_idem, buildPATH_suffix, buildPATH_nodup⟩

/-- C6 (witness): the three amended properties at the concrete starting
path `/usr/bin`. -/
theorem C6_witness :
    buildPATH wOk (buildPATH wOk "/usr/bin") = buildPATH wOk "/usr/bin" ∧
    (∃ p, (buildPATH wOk "/usr/bin").data = p ++ "/usr/bin".data) ∧
    (splitC (buildPATH wOk "/usr/bin").data).Nodup :=
  ⟨C6_theorem.1 wOk "/usr/bin", C6_theorem.2.1 wOk "/usr/bin",
   C6_theorem.2.2 wOk "/usr/bin" (by decide) (by decide)⟩

/-- C7: dispatching any name outside the six declared tool names yields
the `Unknown tool` `ValueError` propagated to the caller, with the global
state untouched and no handler work performed (no invocations, spawns or
writes). -/
theorem C7_theorem (w : World) (name : String) (args : Args) (g : Option String)
    (h : name ∉ toolNames) :
    call_tool w name args g =
      ⟨.error ⟨.valueError, "Unknown tool: " ++ name⟩, g, [], [], []⟩ := by
  simp only [toolNames, list_tools, List.map_cons, List.map_nil, List.mem_cons,
    List.not_mem_nil, or_false, not_or] at h
  obtain ⟨h1, h2, h3, h4, h5, h6⟩ := h
  simp [call_tool, h1, h2, h3, h4, h5, h6]

/-- C7 (witness): calling the undeclared name `frobnicate` raises the
`Unknown tool` error and performs nothing. -/
theorem C7_witness :
    call_tool wOk "frobnicate" argsNone none =
      ⟨.error ⟨.valueError, "Unknown tool: frobnicate"⟩, none, [], [], []⟩ :=
  C7_theorem wOk "frobnicate" argsNone none (by decide)

/-- C8: every file-based handler given a non-existent path returns a `❌`
payload containing `not found` and never calls the invoker (hence never
spawns the assistant). -/
theorem C8_theorem :
    (∀ (w : World) (args : Args) (g : Option String) (p : String),
      args "file_path" = some (.str p) → w.pathExists p = false →
      (review_code_handler w args g).res = .ok [⟨"❌ File not found: " ++ p⟩] ∧
      strContains ("❌ File not found: " ++ p) "not found" ∧
      strStarts "❌" ("❌ File not found: " ++ p) ∧
      (review_code_handler w args g).invoked = [] ∧
      (review_code_handler w args g).spawned = []) ∧
    (∀ (w : World) (args : Args) (g : Option String) (p : String),
      args "source_file" = some (.str p) → w.pathExists p = false →
      (generate_tests_handler w args g).res = .ok [⟨"❌ Source file not found: " ++ p⟩] ∧
      strContains ("❌ Source file not found: " ++ p) "not found" ∧
      strStarts "❌" ("❌ Source file not found: " ++ p) ∧
      (generate_tests_handler w args g).invoked = [] ∧
      (generate_tests_handler w args g).spawned = []) ∧
    (∀ (w : World) (args : Args) (g : Option String) (p : String),
      args "target_path" = some (.str p) → w.isFile p = false → w.isDir p = false →
      (security_audit_handler w args g).res = .ok [⟨"❌ Path not found: " ++ p⟩] ∧
      strContains ("❌ Path not found: " ++ p) "not found" ∧
      strStarts "❌" ("❌ Path not found: " ++ p) ∧
      (security_audit_handler w args g).invoked = [] ∧
      (security_audit_handler w args g).spawned = []) ∧
    (∀ (w : World) (args : Args) (g : Option String) (p : String) (v2 : PyVal),
      args "file_path" = some (.str p) → args "language" = some v2 →
      w.pathExists p = false →
      (performance_analysis_handler w args g).res = .ok [⟨"❌ File not found: " ++ p⟩] ∧
      strContains ("❌ File not found: " ++ p) "not found" ∧
      strStarts "❌" ("❌ File not found: " ++ p) ∧
      (performance_analysis_handler w args g).invoked = [] ∧
      (performance_analysis_handler w args g).spawned = []) ∧
    (∀ (w : World) (args : Args) (g : Option String) (p : String),
      args "project_path" = some (.str p) → w.pathExists p = false →
      (code_quality_report_handler w args g).res = .ok [⟨"❌ Project path not found: " ++ p⟩] ∧
      strContains ("❌ Project path not found: " ++ p) "not found" ∧
      strStarts "❌" ("❌ Project path not found: " ++ p) ∧
      (code_quality_report_handler w args g).invoked = [] ∧
      (code_quality_report_handler w args g).spawned = []) := by
  refine ⟨?_, ?_, ?_, ?_, ?_⟩
  · intro w args g p h hp
    have hh : review_code_handler w args g =
        ⟨.ok [⟨"❌ File not found: " ++ p⟩], g, [], [], []⟩ := by
      unfold review_code_handler getItem
      rw [h]
      unfold review_code_body
      simp [asString, hp]
    rw [hh]
    exact ⟨rfl,
      strContains_append "❌ File not found: " p "❌ File " "not found" ": " (by decide),
      strStarts_append_left _ _ _ (by decide), rfl, rfl⟩
  · intro w args g p h hp
    have hh : generate_tests_handler w args g =
        ⟨.ok [⟨"❌ Source file not found: " ++ p⟩], g, [], [], []⟩ := by
      unfold generate_tests_handler getItem
      rw [h]
      unfold generate_tests_body
      simp [asString, hp]
    rw [hh]
    exact ⟨rfl,
      strContains_append "❌ Source file not found: " p "❌ Source file " "not found" ": " (by decide),
      strStarts_append_left _ _ _ (by decide), rfl, rfl⟩
  · intro w args g p h hf hd
    have hh : security_audit_handler w args g =
        ⟨.ok [⟨"❌ Path not found: " ++ p⟩], g, [], [], []⟩ := by
      unfold security_audit_handler getItem
      rw [h]
      unfold security_audit_body
      simp [asString, hf, hd]
    rw [hh]
    exact ⟨rfl,
      strContains_append "❌ Path not found: " p "❌ Path " "not found" ": " (by decide),
      strStarts_append_left _ _ _ (by decide), rfl, rfl⟩
  · intro w args g p v2 h1 h2 hp
    have hh : performance_analysis_handler w args g =
        ⟨.ok [⟨"❌ File not found: " ++ p⟩], g, [], [], []⟩ := by
      unfold performance_analysis_handler getItem
      rw [h1, h2]
      unfold performance_analysis_body
      simp [asString, hp]
    rw [hh]
    exact ⟨rfl,
      strContains_append "❌ File not found: " p "❌ File " "not found" ": " (by decide),
      strStarts_append_left _ _ _ (by decide), rfl, rfl⟩
  · intro w args g p h hp
    have hh : code_quality_report_handler w args g =
        ⟨.ok [⟨"❌ Project path not found: " ++ p⟩], g, [], [], []⟩ := by
      unfold code_quality_report_handler getItem
      rw [h]
      unfold code_quality_report_body
      simp [asString, hp]
    rw [hh]
    exact ⟨rfl,
      strContains_append "❌ Project path not found: " p "❌ Project path " "not found" ": " (by decide),
      strStarts_append_left _ _ _ (by decide), rfl, rfl⟩

/-- C8 (witness): each file-based handler on the non-existent path `nope`
in an empty world. -/
theorem C8_witness :
    ((review_code_handler wNone (argsOf [("file_path", .str "nope")]) none).res =
       .ok [⟨"❌ File not found: nope"⟩] ∧
     strContains "❌ File not found: nope" "not found" ∧
     strStarts "❌" "❌ File not found: nope" ∧
     (review_code_handler wNone (argsOf [("file_path", .str "nope")]) none).invoked = [] ∧
     (review_code_handler wNone (argsOf [("file_path", .str "nope")]) none).spawned = []) ∧
    ((generate_tests_handler wNone (argsOf [("source_file", .str "nope")]) none).res =
       .ok [⟨"❌ Source file not found: nope"⟩] ∧
     strContains "❌ Source file not found: nope" "not found" ∧
     strStarts "❌" "❌ Source file not found: nope" ∧
     (generate_tests_handler wNone (argsOf [("source_file", .str "nope")]) none).invoked = [] ∧
     (generate_tests_handler wNone (argsOf [("source_file", .str "nope")]) none).spawned = []) ∧
    ((security_audit_handler wNone (argsOf [("target_path", .str "nope")]) none).res =
       .ok [⟨"❌ Path not found: nope"⟩] ∧
     strContains "❌ Path not found: nope" "not found" ∧
     strStarts "❌" "❌ Path not found: nope" ∧
     (security_audit_handler wNone (argsOf [("target_path", .str "nope")]) none).invoked = [] ∧
     (security_audit_handler wNone (argsOf [("target_path", .str "nope")]) none).spawned = []) ∧
    ((performance_analysis_handler wNone
       (argsOf [("file_path", .str "nope"), ("language", .str "python")]) none).res =
       .ok [⟨"❌ File not found: nope"⟩] ∧
     strContains "❌ File not found: nope" "not found" ∧
     strStarts "❌" "❌ File not found: nope" ∧
     (performance_analysis_handler wNone
       (argsOf [("file_path", .str "nope"), ("language", .str "python")]) none).invoked = [] ∧
     (performance_analysis_handler wNone
       (argsOf [("file_path", .str "nope"), ("language", .str "python")]) none).spawned = []) ∧
    ((code_quality_report_handler wNone (argsOf [("project_path", .str "nope")]) none).res =
       .ok [⟨"❌ Project path not found: nope"⟩] ∧
     strContains "❌ Project path not found: nope" "not found" ∧
     strStarts "❌" "❌ Project path not found: nope" ∧
     (code_quality_report_handler wNone (argsOf [("project_path", .str "nope")]) none).invoked = [] ∧
     (code_quality_report_handler wNone (argsOf [("project_path", .str "nope")]) none).spawned = []) :=
  ⟨C8_theorem.1 wNone _ none "nope" rfl rfl,
   C8_theorem.2.1 wNone _ none "nope" rfl rfl,
   C8_theorem.2.2.1 wNone _ none "nope" rfl rfl rfl,
   C8_theorem.2.2.2.1 wNone _ none "nope" (.str "python") rfl rfl rfl,
   C8_theorem.2.2.2.2 wNone _ none "nope" rfl rfl⟩

/-- C9 (counterexample): the claim that the global PATH observed after
resolution always equals its value before fails when PATH starts unset and
the fallback lookup runs: the `finally` block restores
`os.environ.get('PATH', '')`, i.e. sets PATH to the empty string, so an
unset PATH becomes set-to-empty. -/
theorem C9_counterexample :
    (run_gemini_command wNone ["--version"] none 10 none).gstate = some "" ∧
    some "" ≠ (none : Option String) :=
  ⟨rfl, by decide⟩

/-- C9 (amended): whenever the global PATH is set before the call it is
restored exactly (the fallback's try/finally re-installs the saved value),
and in general the value observed with an empty-string default is
preserved; only an initially unset PATH is left set to `""`. -/
theorem C9_theorem :
    (∀ (w : World) (args : List String) (wd : Option String) (t : Nat)
       (g : Option String) (s : String), g = some s →
      (run_gemini_command w args wd t g).gstate = some s) ∧
    (∀ (w : World) (args : List String) (wd : Option String) (t : Nat)
       (g : Option String),
      (run_gemini_command w args wd t g).gstate.getD "" = g.getD "") := by
  constructor
  · intro w args wd t g s hg
    subst hg
    rcases run_gemini_gstate w args wd t (some s) with hh | hh
    · rw [hh]
    · rw [hh]
      rfl
  · intro w args wd t g
    rcases run_gemini_gstate w args wd t g with hh | hh
    · rw [hh]
    · rw [hh]
      rfl

/-- C9 (witness): a set PATH survives a call both when resolution succeeds
immediately and when the fallback restore path runs. -/
theorem C9_witness :
    (run_gemini_command wOk [] none 5 (some "/usr/bin")).gstate = some "/usr/bin" ∧
    (run_gemini_command wNone [] none 5 (some "/usr/bin")).gstate = some "/usr/bin" :=
  ⟨C9_theorem.1 wOk [] none 5 (some "/usr/bin") "/usr/bin" rfl,
   C9_theorem.1 wNone [] none 5 (some "/usr/bin") "/usr/bin" rfl⟩

/-- C10: whenever the audit target exists (as a file or a directory) the
returned payload begins with `✅ Security audit completed!`, whatever the
per-file outcomes — and the `Audited Files` count equals the number of
processed files, failures included (one result entry per attempted
file). -/
theorem C10_theorem :
    (∀ (w : World) (args : Args) (g : Option String) (v : PyVal),
      args "target_path" = some v →
      (w.isFile (asString v) = true ∨ w.isDir (asString v) = true) →
      ∃ m, (security_audit_handler w args g).res = .ok [⟨m⟩] ∧
        strStarts "✅ Security audit completed!" m) ∧
    (∀ (w : World) (files : List String) (g : Option String),
      (auditLoop w files g).1.length = files.length) := by
  constructor
  · intro w args g v h hex
    unfold security_audit_handler getItem
    rw [h]
    unfold security_audit_body
    dsimp only
    by_cases hf : w.isFile (asString v) = true
    · rw [if_pos hf]
      exact auditFiles_res w (asString v) _ [asString v] g
    · have hd : w.isDir (asString v) = true := hex.resolve_left hf
      rw [if_neg hf, if_pos hd]
      exact auditFiles_res w (asString v) _ (globAll w (asString v)) g
  · exact fun w files g => auditLoop_results_length w files g

/-- C10 (witness): a directory target with zero matching files still
yields the `✅ Security audit completed!` payload, and a two-file loop in
which both reads fail still produces two result entries. -/
theorem C10_witness :
    (∃ m, (security_audit_handler wDir (argsOf [("target_path", .str "src")]) none).res =
        .ok [⟨m⟩] ∧ strStarts "✅ Security audit completed!" m) ∧
    (auditLoop wNone ["a.py", "b.py"] none).1.length = 2 :=
  ⟨C10_theorem.1 wDir _ none (.str "src") rfl (Or.inr rfl),
   C10_theorem.2 wNone ["a.py", "b.py"] none⟩
